import Mathlib

/-!
Verification development for the pokemon replay-scraper repository
(src/download_json.py, src/thread_scrape.py, src/mass_scrape.py).

The repository downloads battle-replay JSON records from a remote service and
extracts structured fields from the embedded event log with Python regexes.
This file gives a shallow embedding of that code:

* the five regular expressions of the log parser are embedded as explicit
  scanners over `List Char` (the patterns are simple enough that Python's
  leftmost-match / greedy semantics reduce to literal-then-longest-run
  scanning, see the comments on each definition);
* the network is an oracle (`World`) mapping each request to a status code and
  an optionally-decoded body; `none` for a body models a JSON-decode failure
  (i.e. `response.json()` raising);
* each effectful function returns its result together with a `Trace` of the
  GET requests it issued and the files it wrote;
* Python exceptions that escape a function are modelled with `PyResult.exc`
  carrying the exception name.

Character classes follow the ASCII reading of the Python classes `\w`, `\s`,
`\d` (the logs handled by the scraper are ASCII).
-/

/-- Word character, the ASCII reading of the regex class `\w`:
letters, digits and underscore. -/
def isWordChar (c : Char) : Bool := c.isAlphanum || c == '_'

/-- Whitespace character, the ASCII reading of the regex class `\s`
(also the set stripped by Python's `str.strip()`). -/
def isSpaceChar (c : Char) : Bool :=
  c == ' ' || c == '\t' || c == '\n' || c == '\r' || c == '\x0b' || c == '\x0c'

/-- Class of the group in `r'\|tier\|([\w\s\[\]]+)'`. -/
def tierClass (c : Char) : Bool := isWordChar c || isSpaceChar c || c == '[' || c == ']'

/-- Class of the group in `r'\|win\|([\w\s\*]+)'`. -/
def winClass (c : Char) : Bool := isWordChar c || isSpaceChar c || c == '*'

/-- Class of the second group in `r'\|poke\|(\w+)\|([\w\s,\-*]+)'`. -/
def pokeBodyClass (c : Char) : Bool :=
  isWordChar c || isSpaceChar c || c == ',' || c == '-' || c == '*'

/-- Class of the group in `r'\|rule\|([\w\s,:\-]+)'`. -/
def ruleClass (c : Char) : Bool :=
  isWordChar c || isSpaceChar c || c == ',' || c == ':' || c == '-'

/-- Python `str.strip()`: drop whitespace from both ends. -/
def stripChars (l : List Char) : List Char :=
  ((l.dropWhile isSpaceChar).reverse.dropWhile isSpaceChar).reverse

/-- Python `int()` applied to the digit string matched by `\d+`. -/
def digitsToNat (l : List Char) : Nat :=
  l.foldl (fun a c => a * 10 + (c.toNat - '0'.toNat)) 0

/-- Remove a literal from the front of a char list, `none` when it is not
there (matching a fixed literal piece of a regex at the current position). -/
def dropLit : List Char → List Char → Option (List Char)
  | [], s => some s
  | _ :: _, [] => none
  | c :: cs, d :: ds => if c == d then dropLit cs ds else none

/-- Match the pattern "literal `lit` followed by `(cls)+`" at the start of
`s`.  Returns the captured group and the remainder after the match.  Since the
greedy `(cls)+` group is at the end of the pattern it matches the longest run
with no backtracking, exactly as Python's `re` does on these patterns. -/
def matchLitClassAt (lit : List Char) (cls : Char → Bool) (s : List Char) :
    Option (List Char × List Char) :=
  match dropLit lit s with
  | none => none
  | some rest =>
    match rest with
    | [] => none
    | c :: _ =>
      if cls c then some (rest.takeWhile cls, rest.dropWhile cls)
      else none

/-- `re.search` for a "literal then `(cls)+`" pattern: try the match at each
position from the left and return the first captured group. -/
def searchLitClass (lit : List Char) (cls : Char → Bool) : List Char → Option (List Char)
  | [] => none
  | c :: rest =>
    match matchLitClassAt lit cls (c :: rest) with
    | some gr => some gr.1
    | none => searchLitClass lit cls rest

/-- Fuelled worker for `re.finditer` on a "literal then `(cls)+`" pattern:
scan from the left; after a match continue right after it (matches are
non-overlapping and never empty).  The fuel only bounds recursion depth; one
unit per character of the input suffices because every step consumes at least
one character. -/
def findAllFrom (lit : List Char) (cls : Char → Bool) : Nat → List Char → List (List Char)
  | 0, _ => []
  | _ + 1, [] => []
  | f + 1, c :: rest =>
    match matchLitClassAt lit cls (c :: rest) with
    | some gr => gr.1 :: findAllFrom lit cls f gr.2
    | none => findAllFrom lit cls f rest

/-- `re.finditer` for a "literal then `(cls)+`" pattern, listing the captured
groups in order of occurrence. -/
def findAllLitClass (lit : List Char) (cls : Char → Bool) (s : List Char) : List (List Char) :=
  findAllFrom lit cls s.length s

/-- Literal part of `r'\|gen\|(\d+)'`. -/
def genLit : List Char := "|gen|".toList

/-- Literal part of `r'\|tier\|([\w\s\[\]]+)'`. -/
def tierLit : List Char := "|tier|".toList

/-- Literal part of `r'\|win\|([\w\s\*]+)'`. -/
def winLit : List Char := "|win|".toList

/-- Literal part of `r'\|rule\|([\w\s,:\-]+)'`. -/
def ruleLit : List Char := "|rule|".toList

/-- Literal part of `r'\|poke\|(\w+)\|([\w\s,\-*]+)'`. -/
def pokeLit : List Char := "|poke|".toList

/-- Match `r'\|poke\|(\w+)\|([\w\s,\-*]+)'` at the start of `s`: the literal,
then the greedy `(\w+)` group, then a literal `|`, then the greedy body group.
`(\w+)` needs no backtracking: shortening the maximal word run would leave a
word character where the pattern demands `|`.  Returns both captured groups
and the remainder. -/
def matchPokeAt (s : List Char) : Option ((List Char × List Char) × List Char) :=
  match dropLit pokeLit s with
  | none => none
  | some rest =>
    match rest.takeWhile isWordChar, rest.dropWhile isWordChar with
    | [], _ => none
    | g1, '|' :: rest2 =>
      match rest2 with
      | [] => none
      | c :: _ =>
        if pokeBodyClass c then
          some ((g1, rest2.takeWhile pokeBodyClass), rest2.dropWhile pokeBodyClass)
        else none
    | _, _ => none

/-- Fuelled `re.finditer` worker for the poke pattern. -/
def findAllPokeFrom : Nat → List Char → List (List Char × List Char)
  | 0, _ => []
  | _ + 1, [] => []
  | f + 1, c :: rest =>
    match matchPokeAt (c :: rest) with
    | some (gp, rem) => gp :: findAllPokeFrom f rem
    | none => findAllPokeFrom f rest

/-- `re.finditer(poke_pattern, s)`, listing the (player, pokemon) group pairs
in order of occurrence. -/
def findAllPoke (s : List Char) : List (List Char × List Char) :=
  findAllPokeFrom s.length s

/-- The decoded JSON body of one replay fetch (`data_dict` in the source):
`id, format, players, log` and the auxiliary metadata fields, each absent when
the corresponding key is missing (`dict.get` returns `None`). -/
structure RawReplayPayload where
  id : Option String := none
  format : Option String := none
  players : Option (List String) := none
  log : Option String := none
  views : Option Int := none
  uploadtime : Option Int := none
  rating : Option Int := none
  private_ : Option Bool := none
  formatid : Option String := none
deriving Repr, DecidableEq

/-- The `metadata` sub-record of a parsed replay: passthrough of five payload
fields.  (The source key `private` is a Lean keyword; it is spelled
`private_` here.) -/
structure Metadata where
  views : Option Int
  uploadtime : Option Int
  rating : Option Int
  private_ : Option Bool
  formatid : Option String
deriving Repr, DecidableEq

/-- The normalized record built by `_parse_replay_data` (`parsed_data` in the
source).  `poke` is the two-key dict `{'p1': [...], 'p2': [...]}` modelled as
an association list. -/
structure Replay where
  id : Option String
  format : Option String
  players : Option (List String)
  gen : Option Nat
  tier : Option String
  poke : List (String × List String)
  winner : Option String
  rules : List String
  metadata : Metadata
  full_log : String
deriving Repr, DecidableEq

/-- Initial value of the `poke` dict: `{'p1': [], 'p2': []}`. -/
def pokeInit : List (String × List String) := [("p1", []), ("p2", [])]

/-- `parsed_data['poke'][player].append(pokemon)`: append to the sequence at
an existing key (the dict only ever has the keys `p1` and `p2`). -/
def pokeAppend (m : List (String × List String)) (k : String) (v : String) :
    List (String × List String) :=
  m.map fun q => if q.1 = k then (q.1, q.2 ++ [v]) else q

/-- Body of the poke-extraction loop (thread_scrape.py lines 63-66): take a
match's group pair, strip the descriptor, and append it for recognized player
slots (`if player in ['p1', 'p2']`). -/
def pokeStep (m : List (String × List String)) (gp : List Char × List Char) :
    List (String × List String) :=
  let player : String := String.mk gp.1
  let pokemon : String := String.mk (stripChars gp.2)
  if player = "p1" ∨ player = "p2" then pokeAppend m player pokemon else m

/-- The whole poke-extraction loop over a list of match group pairs. -/
def pokeFold (ms : List (List Char × List Char)) : List (String × List String) :=
  ms.foldl pokeStep pokeInit

/-- `_parse_replay_data(log_content, data_dict)` from thread_scrape.py
lines 34-82 (download_json.py lines 24-98 compute the same record, with the
per-pattern loop unrolled).  The `patterns` loop applies `re.search` per
scalar key: first match only, `gen` coerced with `int()`, `tier`/`winner`
stripped. -/
def _parse_replay_data (log_content : String) (data_dict : RawReplayPayload) : Replay :=
  let l := log_content.toList
  { id := data_dict.id,
    format := data_dict.format,
    players := data_dict.players,
    gen := (searchLitClass genLit Char.isDigit l).map digitsToNat,
    tier := (searchLitClass tierLit tierClass l).map fun g => String.mk (stripChars g),
    poke := pokeFold (findAllPoke l),
    winner := (searchLitClass winLit winClass l).map fun g => String.mk (stripChars g),
    rules := (findAllLitClass ruleLit ruleClass l).map fun g => String.mk (stripChars g),
    metadata :=
      { views := data_dict.views,
        uploadtime := data_dict.uploadtime,
        rating := data_dict.rating,
        private_ := data_dict.private_,
        formatid := data_dict.formatid },
    full_log := log_content }

/-- Outcome trace of an effectful run: the GET requests issued per endpoint
kind, the replay files written, and the directories passed to the mkdir
helper.  Logging and progress display carry no control flow and are not
traced. -/
structure Trace where
  ladderGets : List String := []
  userGets : List String := []
  replayGets : List String := []
  writes : List (String × Replay) := []
  dirs : List String := []
deriving Repr, DecidableEq

/-- The empty trace. -/
def trace0 : Trace := {}

instance : Append Trace :=
  ⟨fun a b =>
    { ladderGets := a.ladderGets ++ b.ladderGets,
      userGets := a.userGets ++ b.userGets,
      replayGets := a.replayGets ++ b.replayGets,
      writes := a.writes ++ b.writes,
      dirs := a.dirs ++ b.dirs }⟩

/-- The network boundary as an oracle: each endpoint maps a request to a
status code and the decoded JSON body; a `none` body models a response whose
`.json()` call raises.  `ladder` is keyed by format name, `userSearch` by
user id, `replay` by the full (already normalized) URL. -/
structure World where
  ladder : String → Nat × Option (List String)
  userSearch : String → Nat × Option (List String)
  replay : String → Nat × Option RawReplayPayload

/-- Outcome of running a piece of Python code that may raise: either a value
or an escaped exception, identified by its class name. -/
inductive PyResult (α : Type) where
  | ok (a : α)
  | exc (name : String)
deriving Repr, DecidableEq

/-- Base replay URL shared by download_json.py, mass_scrape.py and
thread_scrape.py. -/
def replay_base_url : String := "https://replay.pokemonshowdown.com/"

/-- Boolean test that the first list is a leading segment of the second
(Python `str.startswith`). -/
def listIsLeading : List Char → List Char → Bool
  | [], _ => true
  | _ :: _, [] => false
  | c :: cs, d :: ds => c == d && listIsLeading cs ds

/-- URL normalization at the top of `get_replay` and `_download_replay`:
prepend the base URL unless the argument already starts with it. -/
def normalizeUrl (url : String) : String :=
  if listIsLeading replay_base_url.toList url.toList then url else replay_base_url ++ url

/-- Ladder endpoint URL (thread_scrape.py line 154, mass_scrape.py line 107). -/
def ladder_url (format_name : String) : String :=
  "https://pokemonshowdown.com/ladder/" ++ format_name ++ ".json"

/-- Per-user replay-search URL (thread_scrape.py line 111,
mass_scrape.py line 134). -/
def user_search_url (user : String) : String :=
  "https://replay.pokemonshowdown.com/search.json?user=" ++ user

/-- Relative URL submitted per game id (`f"{game['id']}.json"`). -/
def replay_url_path (g : String) : String := g ++ ".json"

/-- Output path per game id (`f'info/all/{game["id"]}.json'`). -/
def replay_out_path (g : String) : String := "info/all/" ++ g ++ ".json"

/-- `ReplayDownloader._download_replay` (thread_scrape.py lines 84-106):
normalize the URL, GET it; non-200 logs and returns `None`; a decode failure
raises and is caught by the enclosing `except`, returning `None`; otherwise
parse the log (`data_dict.get('log', '')`), write the record once, and return
it.  File writes are modelled as atomic; every failure path performs none. -/
def _download_replay (w : World) (url output_path : String) : Option Replay × Trace :=
  let u := normalizeUrl url
  let t : Trace := { replayGets := [u] }
  if (w.replay u).1 = 200 then
    match (w.replay u).2 with
    | none => (none, t)
    | some data_dict =>
      let parsed := _parse_replay_data (data_dict.log.getD "") data_dict
      (some parsed, { t with writes := [(output_path, parsed)] })
  else (none, t)

/-- `ReplayDownloader._process_user_replays` (thread_scrape.py lines
108-144): GET the user's replay list; non-200 returns `[]`; a decode failure
raises and is caught by the function's own `except`, returning `[]`;
otherwise one `_download_replay` task per game id, keeping the non-`None`
results.  The thread pool's completion order is modelled as submission
order; the claims checked here are insensitive to result order. -/
def _process_user_replays (w : World) (user : String) : List Replay × Trace :=
  let t1 : Trace := { userGets := [user_search_url user] }
  if (w.userSearch user).1 = 200 then
    match (w.userSearch user).2 with
    | none => ([], t1)
    | some games =>
      let results := games.map fun g => _download_replay w (replay_url_path g) (replay_out_path g)
      ((results.map Prod.fst).reduceOption, results.foldl (fun t r => t ++ r.2) t1)
  else ([], t1)

/-- `ReplayDownloader.download_ladder_replays` (thread_scrape.py lines
146-181): ensure the output directories, GET the ladder; non-200 logs and
returns with no further work; a decode failure raises into the enclosing
`except` which also just logs and returns; otherwise enumerate every user in
`toplist`.  All exceptions are caught inside, so the function never raises. -/
def download_ladder_replays (w : World) (format_name : String) : Trace :=
  let t0 : Trace := { ladderGets := [ladder_url format_name], dirs := ["info", "info/all"] }
  if (w.ladder format_name).1 = 200 then
    match (w.ladder format_name).2 with
    | none => t0
    | some toplist => toplist.foldl (fun t u => t ++ (_process_user_replays w u).2) t0
  else t0

/-- The `__main__` block of thread_scrape.py (lines 183-186): run
`download_ladder_replays('gen3ou')` and exit.  `download_ladder_replays`
catches every exception, the script has no `sys.exit`, so the process always
terminates normally: the exit status (second component) is 0. -/
def thread_scrape_main (w : World) : Trace × Nat :=
  (download_ladder_replays w "gen3ou", 0)

/-- `get_replay` from download_json.py lines 5-98 (duplicated verbatim as
mass_scrape.py lines 8-101, which is the copy the mass_scrape loop calls).
On a non-200 status the function only prints and falls through: `data_dict`
is bound solely in the 200 branch, and line 33 (`data_dict.get('id')`) then
reads it unconditionally, so the function raises `NameError` before reaching
the file write.  On a 200 status with an undecodable body, `response.json()`
raises.  Otherwise it parses (the parse is field-for-field the one of
`_parse_replay_data`), writes the record once, and returns it. -/
def get_replay (w : World) (url output_path : String) : PyResult Replay × Trace :=
  let u := normalizeUrl url
  let t : Trace := { replayGets := [u] }
  if (w.replay u).1 = 200 then
    match (w.replay u).2 with
    | none => (PyResult.exc "JSONDecodeError", t)
    | some data_dict =>
      let parsed := _parse_replay_data (data_dict.log.getD "") data_dict
      (PyResult.ok parsed, { t with writes := [(output_path, parsed)] })
  else (PyResult.exc "NameError", t)

/-- The inner `for game in user_dict` loop of mass_scrape.py (lines
144-145): call `get_replay` per game id, sequentially; an exception escaping
`get_replay` aborts the loop (and the whole script). -/
def runGames (w : World) : List String → PyResult Unit × Trace
  | [] => (PyResult.ok (), trace0)
  | g :: rest =>
    match get_replay w (replay_url_path g) (replay_out_path g) with
    | (PyResult.exc e, t) => (PyResult.exc e, t)
    | (PyResult.ok _, t) =>
      match runGames w rest with
      | (r2, t2) => (r2, t ++ t2)

/-- One iteration of the mass_scrape.py ladder loop (lines 131-145) for one
user.  `ud` is the current value of the Python variable `user_dict`
(`none` = still unbound).  On a 200 status the variable is rebound to the new
list; on a non-200 status the code only prints, leaving `user_dict` as it
was, and then runs `for game in user_dict` anyway: with `user_dict` unbound
this raises `NameError`, otherwise it re-fetches the previous list.  Returns
the updated variable plus the iteration's outcome and trace. -/
def massUserStep (w : World) (ud : Option (List String)) (user : String) :
    Option (List String) × (PyResult Unit × Trace) :=
  let t1 : Trace := { userGets := [user_search_url user] }
  if (w.userSearch user).1 = 200 then
    match (w.userSearch user).2 with
    | none => (ud, (PyResult.exc "JSONDecodeError", t1))
    | some games => (some games, ((runGames w games).1, t1 ++ (runGames w games).2))
  else
    match ud with
    | none => (none, (PyResult.exc "NameError", t1))
    | some games => (some games, ((runGames w games).1, t1 ++ (runGames w games).2))

/-- The whole mass_scrape.py ladder loop (lines 130-155) over the `toplist`
user ids, starting with `user_dict` in state `ud` (unbound at script start).
An exception escaping an iteration aborts the loop and the script. -/
def massLadderLoop (w : World) (ud : Option (List String)) :
    List String → PyResult Unit × Trace
  | [] => (PyResult.ok (), trace0)
  | user :: rest =>
    match massUserStep w ud user with
    | (_, (PyResult.exc e, t)) => (PyResult.exc e, t)
    | (ud2, (PyResult.ok _, t)) =>
      match massLadderLoop w ud2 rest with
      | (r2, t2) => (r2, t ++ t2)

/-- Local state of one worker racing through `_safe_mkdir(directory)`
(thread_scrape.py lines 29-32, likewise `safemkdir` in mass_scrape.py lines
123-125): it has not yet run the `os.path.exists` check; it saw the directory
absent and is about to call `os.makedirs`; it finished normally (either by
skipping or by creating); or its `os.makedirs` raised `FileExistsError`. -/
inductive WStatus where
  | notChecked
  | toCreate
  | done
  | errored
deriving Repr, DecidableEq

/-- Shared state for the mkdir race: whether the directory exists, plus each
worker's local state. -/
structure MkdirState where
  dirExists : Bool
  workers : List WStatus
deriving Repr, DecidableEq

/-- One atomic step of worker `i` in `_safe_mkdir`: either its
`os.path.exists` check or its `os.makedirs` call.  `os.makedirs` (without
`exist_ok=True`) raises `FileExistsError` when the directory meanwhile
exists. -/
def stepWorker (s : MkdirState) (i : Nat) : MkdirState :=
  match s.workers[i]? with
  | none => s
  | some WStatus.notChecked =>
    if s.dirExists then { s with workers := s.workers.set i WStatus.done }
    else { s with workers := s.workers.set i WStatus.toCreate }
  | some WStatus.toCreate =>
    if s.dirExists then { s with workers := s.workers.set i WStatus.errored }
    else { dirExists := true, workers := s.workers.set i WStatus.done }
  | some WStatus.done => s
  | some WStatus.errored => s

/-- Run a given interleaving (a schedule of worker indices) from a state. -/
def runSched (s : MkdirState) (sched : List Nat) : MkdirState :=
  sched.foldl stepWorker s

/-- Initial state for `n` workers racing to create one absent directory. -/
def mkdirInit (n : Nat) : MkdirState :=
  { dirExists := false, workers := List.replicate n WStatus.notChecked }

/-- A concrete payload used to instantiate hypotheses at sample inputs. -/
def samplePayload : RawReplayPayload :=
  { id := some "gen3ou-1", format := some "[Gen 3] OU", players := some ["Alice", "Bob"],
    log := some "|gen|3", views := some 12, uploadtime := some 170, rating := some 1500,
    private_ := some false, formatid := some "gen3ou" }

/-- A world whose every fetch succeeds. -/
def replayOkWorld : World :=
  { ladder := fun _ => (200, some ["alice"]),
    userSearch := fun _ => (200, some ["g1"]),
    replay := fun _ => (200, some samplePayload) }

/-- A world whose ladder fetch returns HTTP 500. -/
def ladderDownWorld : World :=
  { ladder := fun _ => (500, none),
    userSearch := fun _ => (200, some ["g1"]),
    replay := fun _ => (200, some samplePayload) }

/-- A world whose user-search fetch returns HTTP 500. -/
def userDownWorld : World :=
  { ladder := fun _ => (200, some ["alice"]),
    userSearch := fun _ => (500, none),
    replay := fun _ => (200, some samplePayload) }

/-- A world whose replay fetch returns HTTP 404. -/
def replayDownWorld : World :=
  { ladder := fun _ => (200, some ["alice"]),
    userSearch := fun _ => (200, some ["g1"]),
    replay := fun _ => (404, none) }

/-- A "literal then class-run" pattern never matches at the end of the
input: the run needs at least one character. -/
theorem matchLitClassAt_nil (lit : List Char) (cls : Char → Bool) :
    matchLitClassAt lit cls [] = none := by
  cases lit with
  | nil => rfl
  | cons c cs => rfl

/-- `searchLitClass` returns the group captured at the leftmost matching
position: if the pattern matches at index `i` and at no earlier index, the
search result is that match's group. -/
theorem searchLitClass_first (lit : List Char) (cls : Char → Bool) (l : List Char)
    (i : Nat) (g rem : List Char)
    (hb : ∀ j, j < i → matchLitClassAt lit cls (l.drop j) = none)
    (hm : matchLitClassAt lit cls (l.drop i) = some (g, rem)) :
    searchLitClass lit cls l = some g := by
  induction l generalizing i with
  | nil =>
    rw [List.drop_nil, matchLitClassAt_nil] at hm
    exact absurd hm (by simp)
  | cons c t ih =>
    cases i with
    | zero =>
      rw [List.drop_zero] at hm
      simp [searchLitClass, hm]
    | succ i2 =>
      have h0 : matchLitClassAt lit cls (c :: t) = none := by
        simpa using hb 0 (Nat.succ_pos i2)
      have hb2 : ∀ j, j < i2 → matchLitClassAt lit cls (t.drop j) = none := by
        intro j hj
        simpa [List.drop_succ_cons] using hb (j + 1) (Nat.succ_lt_succ hj)
      have hm2 : matchLitClassAt lit cls (t.drop i2) = some (g, rem) := by
        simpa [List.drop_succ_cons] using hm
      simpa [searchLitClass, h0] using ih i2 hb2 hm2

/-- `searchLitClass` finds nothing when the pattern matches at no position of
the input (positions at or past the end never match). -/
theorem searchLitClass_not_found (lit : List Char) (cls : Char → Bool) (l : List Char)
    (h : ∀ j, j < l.length → matchLitClassAt lit cls (l.drop j) = none) :
    searchLitClass lit cls l = none := by
  induction l with
  | nil => rfl
  | cons c t ih =>
    have h0 : matchLitClassAt lit cls (c :: t) = none := by
      simpa using h 0 (Nat.succ_pos t.length)
    have ht : ∀ j, j < t.length → matchLitClassAt lit cls (t.drop j) = none := by
      intro j hj
      simpa [List.drop_succ_cons] using h (j + 1) (Nat.succ_lt_succ hj)
    simpa [searchLitClass, h0] using ih ht

/-- Appending for slot "p1" on the canonical two-key dict. -/
theorem pokeAppend_p1 (a b : List String) (v : String) :
    pokeAppend [("p1", a), ("p2", b)] "p1" v = [("p1", a ++ [v]), ("p2", b)] := by
  simp [pokeAppend]

/-- Appending for slot "p2" on the canonical two-key dict. -/
theorem pokeAppend_p2 (a b : List String) (v : String) :
    pokeAppend [("p1", a), ("p2", b)] "p2" v = [("p1", a), ("p2", b ++ [v])] := by
  simp [pokeAppend]

/-- Closed form of the poke-extraction loop run from an arbitrary two-key
dict: each slot ends with its starting sequence extended, in match order, by
the stripped descriptors of exactly the matches carrying that slot. -/
theorem pokeFoldFrom_closed (ms : List (List Char × List Char)) (a b : List String) :
    ms.foldl pokeStep [("p1", a), ("p2", b)] =
      [("p1", a ++ ms.filterMap fun gp =>
          if String.mk gp.1 = "p1" then some (String.mk (stripChars gp.2)) else none),
       ("p2", b ++ ms.filterMap fun gp =>
          if String.mk gp.1 = "p2" then some (String.mk (stripChars gp.2)) else none)] := by
  induction ms generalizing a b with
  | nil => simp
  | cons gp rest ih =>
    rw [List.foldl_cons]
    by_cases h1 : String.mk gp.1 = "p1"
    · have h2 : ¬ String.mk gp.1 = "p2" := by rw [h1]; decide
      have hstep : pokeStep [("p1", a), ("p2", b)] gp =
          [("p1", a ++ [String.mk (stripChars gp.2)]), ("p2", b)] := by
        rw [pokeStep]
        rw [if_pos (Or.inl h1), h1, pokeAppend_p1]
      rw [hstep, ih]
      simp [h1, h2, List.filterMap_cons]
    · by_cases h2 : String.mk gp.1 = "p2"
      · have hstep : pokeStep [("p1", a), ("p2", b)] gp =
            [("p1", a), ("p2", b ++ [String.mk (stripChars gp.2)])] := by
          rw [pokeStep]
          rw [if_pos (Or.inr h2), h2, pokeAppend_p2]
        rw [hstep, ih]
        simp [h1, h2, List.filterMap_cons]
      · have hstep : pokeStep [("p1", a), ("p2", b)] gp = [("p1", a), ("p2", b)] := by
          rw [pokeStep]
          rw [if_neg]
          intro hor
          cases hor with
          | inl h => exact h1 h
          | inr h => exact h2 h
        rw [hstep, ih]
        simp [h1, h2, List.filterMap_cons]

/-- Closed form of `pokeFold` itself. -/
theorem pokeFold_closed (ms : List (List Char × List Char)) :
    pokeFold ms =
      [("p1", ms.filterMap fun gp =>
          if String.mk gp.1 = "p1" then some (String.mk (stripChars gp.2)) else none),
       ("p2", ms.filterMap fun gp =>
          if String.mk gp.1 = "p2" then some (String.mk (stripChars gp.2)) else none)] := by
  simpa using pokeFoldFrom_closed ms [] []

/-- Matches whose slot is neither "p1" nor "p2" leave the loop state
untouched: filtering them away changes nothing, from any starting dict. -/
theorem pokeFoldFrom_filter (ms : List (List Char × List Char)) (m : List (String × List String)) :
    (ms.filter fun gp =>
        decide (String.mk gp.1 = "p1" ∨ String.mk gp.1 = "p2")).foldl pokeStep m =
      ms.foldl pokeStep m := by
  induction ms generalizing m with
  | nil => rfl
  | cons gp rest ih =>
    by_cases h : String.mk gp.1 = "p1" ∨ String.mk gp.1 = "p2"
    · rw [List.filter_cons_of_pos (by simpa using h), List.foldl_cons, List.foldl_cons]
      exact ih _
    · rw [List.filter_cons_of_neg (by simpa using h), List.foldl_cons]
      have hstep : pokeStep m gp = m := by
        rw [pokeStep, if_neg h]
      rw [hstep]
      exact ih m

/-- Key "p1" looked up in the canonical two-key dict. -/
theorem lookup_p1 (v1 v2 : List String) :
    List.lookup "p1" [("p1", v1), ("p2", v2)] = some v1 := by
  simp [List.lookup]

/-- Key "p2" looked up in the canonical two-key dict. -/
theorem lookup_p2 (v1 v2 : List String) :
    List.lookup "p2" [("p1", v1), ("p2", v2)] = some v2 := by
  simp [List.lookup]

/-- C1: the log parser is total.  `_parse_replay_data` is a total Lean
function by construction, so it returns a `Replay` for every log text and
payload.  On the empty string the three scalar fields are unset, the roster
and rules sequences are empty, and `id`/`format`/`players` and the five
metadata fields pass through from the payload unaffected; moreover, whenever
one of the scalar patterns has no occurrence in the log (its search returns
nothing), the corresponding field is unset rather than an error. -/
theorem C1_parse_total (p : RawReplayPayload) (logText : String) :
    ((_parse_replay_data "" p).gen = none
      ∧ (_parse_replay_data "" p).tier = none
      ∧ (_parse_replay_data "" p).winner = none
      ∧ (_parse_replay_data "" p).poke = [("p1", []), ("p2", [])]
      ∧ (_parse_replay_data "" p).rules = []
      ∧ (_parse_replay_data "" p).id = p.id
      ∧ (_parse_replay_data "" p).format = p.format
      ∧ (_parse_replay_data "" p).players = p.players
      ∧ (_parse_replay_data "" p).metadata =
          ⟨p.views, p.uploadtime, p.rating, p.private_, p.formatid⟩)
  ∧ (searchLitClass genLit Char.isDigit logText.toList = none →
      (_parse_replay_data logText p).gen = none)
  ∧ (searchLitClass tierLit tierClass logText.toList = none →
      (_parse_replay_data logText p).tier = none)
  ∧ (searchLitClass winLit winClass logText.toList = none →
      (_parse_replay_data logText p).winner = none) := by
  refine ⟨⟨rfl, rfl, rfl, rfl, rfl, rfl, rfl, rfl, rfl⟩, ?_, ?_, ?_⟩
  · intro h
    simp only [_parse_replay_data, h]
    rfl
  · intro h
    simp only [_parse_replay_data, h]
    rfl
  · intro h
    simp only [_parse_replay_data, h]
    rfl

/-- Witness for C1_parse_total: a log with none of the patterns leaves all
three scalar fields unset. -/
theorem C1_parse_total_witness :
    (_parse_replay_data "plain text with no events" samplePayload).gen = none
  ∧ (_parse_replay_data "plain text with no events" samplePayload).tier = none
  ∧ (_parse_replay_data "plain text with no events" samplePayload).winner = none :=
  ⟨(C1_parse_total samplePayload "plain text with no events").2.1 (by decide),
   (C1_parse_total samplePayload "plain text with no events").2.2.1 (by decide),
   (C1_parse_total samplePayload "plain text with no events").2.2.2 (by decide)⟩

/-- C4: `gen`, `tier` and `winner` each come from the first occurrence of
their pattern in the log text: if the pattern matches at index `i` and at no
earlier index, the parsed field carries that match's group — `gen` coerced to
an integer, `tier`/`winner` trimmed; and when the pattern matches at no index
the field stays unset. -/
theorem C4_first_match (logText : String) (p : RawReplayPayload) :
    (∀ i g rem,
      (∀ j, j < i → matchLitClassAt genLit Char.isDigit (logText.toList.drop j) = none) →
      matchLitClassAt genLit Char.isDigit (logText.toList.drop i) = some (g, rem) →
      (_parse_replay_data logText p).gen = some (digitsToNat g))
  ∧ (∀ i g rem,
      (∀ j, j < i → matchLitClassAt tierLit tierClass (logText.toList.drop j) = none) →
      matchLitClassAt tierLit tierClass (logText.toList.drop i) = some (g, rem) →
      (_parse_replay_data logText p).tier = some (String.mk (stripChars g)))
  ∧ (∀ i g rem,
      (∀ j, j < i → matchLitClassAt winLit winClass (logText.toList.drop j) = none) →
      matchLitClassAt winLit winClass (logText.toList.drop i) = some (g, rem) →
      (_parse_replay_data logText p).winner = some (String.mk (stripChars g)))
  ∧ ((∀ j, j < logText.toList.length →
        matchLitClassAt genLit Char.isDigit (logText.toList.drop j) = none) →
      (_parse_replay_data logText p).gen = none)
  ∧ ((∀ j, j < logText.toList.length →
        matchLitClassAt tierLit tierClass (logText.toList.drop j) = none) →
      (_parse_replay_data logText p).tier = none)
  ∧ ((∀ j, j < logText.toList.length →
        matchLitClassAt winLit winClass (logText.toList.drop j) = none) →
      (_parse_replay_data logText p).winner = none) := by
  refine ⟨?_, ?_, ?_, ?_, ?_, ?_⟩
  · intro i g rem hb hm
    have hs := searchLitClass_first genLit Char.isDigit logText.toList i g rem hb hm
    simp only [_parse_replay_data, hs]
    rfl
  · intro i g rem hb hm
    have hs := searchLitClass_first tierLit tierClass logText.toList i g rem hb hm
    simp only [_parse_replay_data, hs]
    rfl
  · intro i g rem hb hm
    have hs := searchLitClass_first winLit winClass logText.toList i g rem hb hm
    simp only [_parse_replay_data, hs]
    rfl
  · intro h
    have hs := searchLitClass_not_found genLit Char.isDigit logText.toList h
    simp only [_parse_replay_data, hs]
    rfl
  · intro h
    have hs := searchLitClass_not_found tierLit tierClass logText.toList h
    simp only [_parse_replay_data, hs]
    rfl
  · intro h
    have hs := searchLitClass_not_found winLit winClass logText.toList h
    simp only [_parse_replay_data, hs]
    rfl

/-- Witness for C4_first_match: a log with two different `gen` values parses
to the first; a log with two tiers and two winners takes the first of each;
patterns with no occurrence leave their fields unset. -/
theorem C4_first_match_witness :
    (_parse_replay_data "|gen|3|gen|5" samplePayload).gen = some (digitsToNat ['3'])
  ∧ (_parse_replay_data "|tier|OU|tier|UU|win|A|win|B" samplePayload).tier
      = some (String.mk (stripChars ['O', 'U']))
  ∧ (_parse_replay_data "|tier|OU|tier|UU|win|A|win|B" samplePayload).winner
      = some (String.mk (stripChars ['A']))
  ∧ (_parse_replay_data "|tier|OU|tier|UU|win|A|win|B" samplePayload).gen = none
  ∧ (_parse_replay_data "|gen|3|gen|5" samplePayload).tier = none
  ∧ (_parse_replay_data "|gen|3|gen|5" samplePayload).winner = none := by
  refine ⟨?_, ?_, ?_, ?_, ?_, ?_⟩
  · exact (C4_first_match "|gen|3|gen|5" samplePayload).1 0 ['3']
      "|gen|5".toList (by decide) (by decide)
  · exact (C4_first_match "|tier|OU|tier|UU|win|A|win|B" samplePayload).2.1 0 ['O', 'U']
      "|tier|UU|win|A|win|B".toList (by decide) (by decide)
  · exact (C4_first_match "|tier|OU|tier|UU|win|A|win|B" samplePayload).2.2.1 16 ['A']
      "|win|B".toList (by decide) (by decide)
  · exact (C4_first_match "|tier|OU|tier|UU|win|A|win|B" samplePayload).2.2.2.1 (by decide)
  · exact (C4_first_match "|gen|3|gen|5" samplePayload).2.2.2.2.1 (by decide)
  · exact (C4_first_match "|gen|3|gen|5" samplePayload).2.2.2.2.2 (by decide)

/-- C5: each player slot's roster lists the stripped descriptors of exactly
the poke matches carrying that slot, in their order of occurrence in the log,
duplicates preserved; concretely, reveal events ordered `p1:A, p2:X, p1:B`
yield `p1 = [A, B]` and `p2 = [X]`. -/
theorem C5_roster_order (logText : String) (p : RawReplayPayload) :
    List.lookup "p1" (_parse_replay_data logText p).poke =
      some ((findAllPoke logText.toList).filterMap fun gp =>
        if String.mk gp.1 = "p1" then some (String.mk (stripChars gp.2)) else none)
  ∧ List.lookup "p2" (_parse_replay_data logText p).poke =
      some ((findAllPoke logText.toList).filterMap fun gp =>
        if String.mk gp.1 = "p2" then some (String.mk (stripChars gp.2)) else none)
  ∧ (_parse_replay_data "|poke|p1|A\n|poke|p2|X\n|poke|p1|B" p).poke
      = [("p1", ["A", "B"]), ("p2", ["X"])] := by
  refine ⟨?_, ?_, ?_⟩
  · have h := pokeFold_closed (findAllPoke logText.toList)
    simp only [_parse_replay_data, h]
    exact lookup_p1 _ _
  · have h := pokeFold_closed (findAllPoke logText.toList)
    simp only [_parse_replay_data, h]
    exact lookup_p2 _ _
  · rfl

/-- C6: the `poke` dict of every parse result has exactly the two keys `p1`
and `p2`, in that order; matches whose slot token is neither `p1` nor `p2`
contribute to neither sequence (dropping them from the match list does not
change the loop's result); concretely a lone `p3` reveal leaves both rosters
empty. -/
theorem C6_fixed_keys (logText : String) (p : RawReplayPayload) :
    (_parse_replay_data logText p).poke.map Prod.fst = ["p1", "p2"]
  ∧ (∀ ms : List (List Char × List Char),
      (ms.filter fun gp =>
          decide (String.mk gp.1 = "p1" ∨ String.mk gp.1 = "p2")).foldl pokeStep pokeInit
        = pokeFold ms)
  ∧ (_parse_replay_data "|poke|p3|C" p).poke = [("p1", []), ("p2", [])] := by
  refine ⟨?_, ?_, ?_⟩
  · have h := pokeFold_closed (findAllPoke logText.toList)
    simp only [_parse_replay_data, h]
    rfl
  · intro ms
    exact pokeFoldFrom_filter ms pokeInit
  · rfl

/-- C2 (amended): when the ladder fetch returns a non-200 status the run
persists zero files, attempts no user-list fetch and no replay fetch — but it
terminates normally: `download_ladder_replays` only logs the failure and
returns, the `__main__` block does nothing further, so the process exit
status is 0, not non-zero. -/
theorem C2_ladder_failure (w : World) (h : (w.ladder "gen3ou").1 ≠ 200) :
    (thread_scrape_main w).1.writes = []
  ∧ (thread_scrape_main w).1.userGets = []
  ∧ (thread_scrape_main w).1.replayGets = []
  ∧ (thread_scrape_main w).2 = 0 := by
  have hrun : download_ladder_replays w "gen3ou" =
      { ladderGets := [ladder_url "gen3ou"], dirs := ["info", "info/all"] } := by
    rw [download_ladder_replays, if_neg h]
  refine ⟨?_, ?_, ?_, rfl⟩ <;> simp [thread_scrape_main, hrun]

/-- Witness for C2_ladder_failure at the concrete ladder-down world. -/
theorem C2_ladder_failure_witness :
    (thread_scrape_main ladderDownWorld).1.writes = []
  ∧ (thread_scrape_main ladderDownWorld).1.userGets = []
  ∧ (thread_scrape_main ladderDownWorld).1.replayGets = []
  ∧ (thread_scrape_main ladderDownWorld).2 = 0 :=
  C2_ladder_failure ladderDownWorld (by decide)

/-- Counterexample to C2 as stated: with a simulated HTTP 500 ladder
response the run does persist zero files and attempts no user or replay
fetch, but its outcome is exit status 0, so the claimed conjunction (which
demands a non-zero run outcome) is false. -/
theorem C2_counterexample :
    ¬ ((thread_scrape_main ladderDownWorld).1.writes = []
       ∧ (thread_scrape_main ladderDownWorld).1.userGets = []
       ∧ (thread_scrape_main ladderDownWorld).1.replayGets = []
       ∧ (thread_scrape_main ladderDownWorld).2 ≠ 0) := by decide

/-- C3: the directory-creation helper is check-then-create without
`exist_ok`, so two workers racing on one absent directory admit the
interleaving check₀, check₁, create₀, create₁ in which both checks see the
directory absent, worker 0 creates it, and worker 1's `os.makedirs` then
raises `FileExistsError` — exactly one directory results, but a worker
errors.  A worker whose check runs when the directory already exists skips
creation and finishes without error (the sequential reading of the claim). -/
theorem C3_mkdir_race :
    (runSched (mkdirInit 2) [0, 1, 0, 1]).workers = [WStatus.done, WStatus.errored]
  ∧ (runSched (mkdirInit 2) [0, 1, 0, 1]).dirExists = true
  ∧ (runSched { dirExists := true, workers := [WStatus.notChecked] } [0, 0]).workers
      = [WStatus.done] := by decide

/-- C7: `_download_replay` writes exactly one file when the fetch succeeds
with a decodable body (and returns the parsed record), and writes nothing on
any failure path; in particular a non-200 status yields result `None` with no
write. -/
theorem C7_write_discipline (w : World) (url output_path : String) :
    ((w.replay (normalizeUrl url)).1 ≠ 200 →
      _download_replay w url output_path
        = (none, { replayGets := [normalizeUrl url] }))
  ∧ (∀ d, (w.replay (normalizeUrl url)).1 = 200 → (w.replay (normalizeUrl url)).2 = some d →
      (_download_replay w url output_path).1
          = some (_parse_replay_data (d.log.getD "") d)
        ∧ (_download_replay w url output_path).2.writes
          = [(output_path, _parse_replay_data (d.log.getD "") d)])
  ∧ ((_download_replay w url output_path).1 = none →
      (_download_replay w url output_path).2.writes = []) := by
  refine ⟨?_, ?_, ?_⟩
  · intro h
    rw [_download_replay, if_neg h]
  · intro d h hd
    constructor <;> simp [_download_replay, h, hd]
  · intro h
    by_cases hs : (w.replay (normalizeUrl url)).1 = 200
    · cases hd : (w.replay (normalizeUrl url)).2 with
      | none => simp [_download_replay, hs, hd]
      | some d => simp [_download_replay, hs, hd] at h
    · simp [_download_replay, hs]

/-- Witness for C7_write_discipline: one successful fetch writes exactly the
parsed record once; a 404 fetch returns `None` and writes nothing. -/
theorem C7_write_discipline_witness :
    ((_download_replay replayOkWorld "g1.json" "info/all/g1.json").1
        = some (_parse_replay_data (samplePayload.log.getD "") samplePayload)
      ∧ (_download_replay replayOkWorld "g1.json" "info/all/g1.json").2.writes
        = [("info/all/g1.json", _parse_replay_data (samplePayload.log.getD "") samplePayload)])
  ∧ _download_replay replayDownWorld "g1.json" "info/all/g1.json"
      = (none, { replayGets := [normalizeUrl "g1.json"] })
  ∧ (_download_replay replayDownWorld "g1.json" "info/all/g1.json").2.writes = [] :=
  ⟨(C7_write_discipline replayOkWorld "g1.json" "info/all/g1.json").2.1
      samplePayload rfl rfl,
   (C7_write_discipline replayDownWorld "g1.json" "info/all/g1.json").1 (by decide),
   (C7_write_discipline replayDownWorld "g1.json" "info/all/g1.json").2.2 (by decide)⟩

/-- C8: `_process_user_replays` returns the empty sequence (and issues no
replay fetch, writes nothing) when the user's list fetch has a non-200
status; it also returns the empty sequence when the list body fails to
decode (the raise is caught inside the function, so nothing escapes its
boundary — the Lean model is a total function); and on success the returned
sequence is exactly the non-`None` results of the per-replay tasks: failing
tasks are excluded, the remaining results are collected. -/
theorem C8_enumerate (w : World) (user : String) :
    ((w.userSearch user).1 ≠ 200 →
      _process_user_replays w user = ([], { userGets := [user_search_url user] }))
  ∧ ((w.userSearch user).2 = none → (_process_user_replays w user).1 = [])
  ∧ (∀ games, (w.userSearch user).1 = 200 → (w.userSearch user).2 = some games →
      (_process_user_replays w user).1 =
        (games.map fun g =>
          (_download_replay w (replay_url_path g) (replay_out_path g)).1).reduceOption) := by
  refine ⟨?_, ?_, ?_⟩
  · intro h
    rw [_process_user_replays, if_neg h]
  · intro h
    by_cases hs : (w.userSearch user).1 = 200
    · simp [_process_user_replays, hs, h]
    · simp [_process_user_replays, hs]
  · intro games hs hg
    simp [_process_user_replays, hs, hg, List.map_map]
    rfl

/-- Witness for C8_enumerate: a 500 list fetch yields the empty sequence
with only the one user GET; a decode failure also yields the empty sequence;
a successful run collects the per-task results. -/
theorem C8_enumerate_witness :
    _process_user_replays userDownWorld "alice"
        = ([], { userGets := [user_search_url "alice"] })
  ∧ (_process_user_replays userDownWorld "alice").1 = []
  ∧ (_process_user_replays replayOkWorld "alice").1 =
      ((["g1"].map fun g =>
        (_download_replay replayOkWorld (replay_url_path g) (replay_out_path g)).1).reduceOption) :=
  ⟨(C8_enumerate userDownWorld "alice").1 (by decide),
   (C8_enumerate userDownWorld "alice").2.1 rfl,
   (C8_enumerate replayOkWorld "alice").2.2 ["g1"] rfl rfl⟩

/-- C9: in the standalone fetch path (`get_replay` of download_json.py), a
non-200 response makes the function raise `NameError` — `data_dict` is bound
only in the 200 branch and is read unconditionally right after — instead of
returning an error value, and no output file is written before the
exception. -/
theorem C9_get_replay_name_error (w : World) (url output_path : String)
    (h : (w.replay (normalizeUrl url)).1 ≠ 200) :
    (get_replay w url output_path).1 = PyResult.exc "NameError"
  ∧ (get_replay w url output_path).2.writes = [] := by
  constructor <;> simp [get_replay, h]

/-- Witness for C9_get_replay_name_error at the concrete 404 world. -/
theorem C9_get_replay_name_error_witness :
    (get_replay replayDownWorld "g1.json" "info/all/g1.json").1 = PyResult.exc "NameError"
  ∧ (get_replay replayDownWorld "g1.json" "info/all/g1.json").2.writes = [] :=
  C9_get_replay_name_error replayDownWorld "g1.json" "info/all/g1.json" (by decide)

/-- C10: in the mass_scrape.py ladder loop, a non-200 user-list fetch does
not skip the user.  If it is the first user, `user_dict` is unbound and the
loop raises `NameError` (after only the one user GET, aborting the script);
for any later user the iteration silently keeps the previous successful
user's list `gs` and runs the replay loop over `gs` again, re-fetching those
replays. -/
theorem C10_mass_loop_reuse (w : World) (u : String) (rest gs : List String)
    (h : (w.userSearch u).1 ≠ 200) :
    (massLadderLoop w none (u :: rest)).1 = PyResult.exc "NameError"
  ∧ (massLadderLoop w none (u :: rest)).2 = { userGets := [user_search_url u] }
  ∧ massUserStep w (some gs) u =
      (some gs, ((runGames w gs).1,
        ({ userGets := [user_search_url u] } : Trace) ++ (runGames w gs).2)) := by
  have hstep : massUserStep w none u =
      (none, (PyResult.exc "NameError", { userGets := [user_search_url u] })) := by
    rw [massUserStep, if_neg h]
  refine ⟨?_, ?_, ?_⟩
  · simp [massLadderLoop, hstep]
  · simp [massLadderLoop, hstep]
  · rw [massUserStep, if_neg h]

/-- Witness for C10_mass_loop_reuse at the concrete user-down world. -/
theorem C10_mass_loop_reuse_witness :
    (massLadderLoop userDownWorld none ["alice"]).1 = PyResult.exc "NameError"
  ∧ massUserStep userDownWorld (some ["g1"]) "alice" =
      (some ["g1"], ((runGames userDownWorld ["g1"]).1,
        ({ userGets := [user_search_url "alice"] } : Trace) ++ (runGames userDownWorld ["g1"]).2)) :=
  ⟨(C10_mass_loop_reuse userDownWorld "alice" [] ["g1"] (by decide)).1,
   (C10_mass_loop_reuse userDownWorld "alice" [] ["g1"] (by decide)).2.2⟩
